import Mathlib

/-!
Verification of `fpb_tools/build.py` (HERA-FPB): the build orchestration and
device-image packaging pipeline.  File contents are modelled as `List Nat`
(byte values), filesystem and external-process effects are made explicit:
each orchestration function takes the relevant filesystem view and the
outcome of its external calls (shell / container runtime) as arguments and
returns the list of effect events it performs together with its
`Except`-style result (a Python function either returns or raises).
-/

namespace FPB

/-- Modelled from the spec: `FW_FLASH_SIZE` is imported from
`fpb_tools.device`, which is not among the sources.  The spec's scenario
fixes `FLASH_SIZE = 0x8000`. -/
def FW_FLASH_SIZE : Nat := 0x8000

/-- Modelled from the spec: `FW_EEPROM_SIZE` is imported from
`fpb_tools.device`, which is not among the sources.  The spec's scenario
fixes `EEPROM_SIZE = 0x800`. -/
def FW_EEPROM_SIZE : Nat := 0x800

/-- Python `bytes.ljust(n, fill)`: pad on the right with `fill` bytes up to
length `n`; if the input is already at least `n` long it is returned
unchanged (`n - xs.length = 0` then). -/
def ljust (xs : List Nat) (n : Nat) (fill : Nat) : List Nat :=
  xs ++ List.replicate (n - xs.length) fill

/-- The filesystem view seen by `package_device`: the byte contents of the
files at its three path arguments `bin_path`, `eeprom_path`, `image_path`. -/
structure PackageFS where
  bin : List Nat
  eeprom : List Nat
  image : List Nat
deriving Repr, DecidableEq

/-- Error vocabulary for the packaging step.  `imageTooLarge` renders the
spec's `ImageTooLargeError`; the body of the source function
(`build.py:163-189`) contains no raise statement, so the embedding never
produces it. -/
inductive PkgErr
  | imageTooLarge
deriving Repr, DecidableEq

/-- `package_device` (`build.py:163-189`): read the file at `bin_path`, pad
it to `FW_FLASH_SIZE` with `0xff`, read the file at `eeprom_path`, pad it to
`FW_EEPROM_SIZE` with `0xff`, concatenate, and overwrite the file at
`image_path` with the result. -/
def package_device (fs : PackageFS) : Except PkgErr PackageFS :=
  let bin_data := fs.bin
  let image_bin_data := ljust bin_data FW_FLASH_SIZE 0xff
  let eeprom_data := fs.eeprom
  let image_eeprom_data := ljust eeprom_data FW_EEPROM_SIZE 0xff
  let image_data := image_bin_data ++ image_eeprom_data
  Except.ok { fs with image := image_data }

/-- C2: For in-bound inputs, `package_device` succeeds and writes to
`image_path` a byte string of length exactly `FW_FLASH_SIZE + FW_EEPROM_SIZE`
whose first `len(b)` bytes are the binary contents, next
`FW_FLASH_SIZE - len(b)` bytes are `0xff`, next `len(e)` bytes are the
eeprom contents, and remaining `FW_EEPROM_SIZE - len(e)` bytes are `0xff`. -/
theorem package_device_layout (fs : PackageFS)
    (hb : fs.bin.length ≤ FW_FLASH_SIZE)
    (he : fs.eeprom.length ≤ FW_EEPROM_SIZE) :
    ∃ fs', package_device fs = Except.ok fs' ∧
      fs'.image.length = FW_FLASH_SIZE + FW_EEPROM_SIZE ∧
      fs'.image.take fs.bin.length = fs.bin ∧
      (fs'.image.drop fs.bin.length).take (FW_FLASH_SIZE - fs.bin.length) =
        List.replicate (FW_FLASH_SIZE - fs.bin.length) 0xff ∧
      (fs'.image.drop FW_FLASH_SIZE).take fs.eeprom.length = fs.eeprom ∧
      fs'.image.drop (FW_FLASH_SIZE + fs.eeprom.length) =
        List.replicate (FW_EEPROM_SIZE - fs.eeprom.length) 0xff := by
  refine ⟨{ fs with
      image := ljust fs.bin FW_FLASH_SIZE 0xff ++ ljust fs.eeprom FW_EEPROM_SIZE 0xff },
    rfl, ?_, ?_, ?_, ?_, ?_⟩
  · simp only [ljust, List.length_append, List.length_replicate]
    omega
  · simp only [ljust, List.append_assoc]
    exact List.take_left _ _
  · simp only [ljust, List.append_assoc]
    rw [List.drop_left]
    exact List.take_left' (List.length_replicate _ _)
  · simp only [ljust]
    rw [List.drop_left' (by simp only [List.length_append, List.length_replicate]; omega)]
    exact List.take_left _ _
  · simp only [ljust, ← List.append_assoc]
    rw [List.drop_left' (by simp only [List.length_append, List.length_replicate]; omega)]

/-- Witness for C2 at the spec's scenario: binary `[0x01,0x02,0x03,0x04]`,
eeprom `[0xAA,0xBB]`. -/
theorem package_device_layout_witness :
    (PackageFS.mk [1, 2, 3, 4] [0xAA, 0xBB] []).bin.length ≤ FW_FLASH_SIZE ∧
    (PackageFS.mk [1, 2, 3, 4] [0xAA, 0xBB] []).eeprom.length ≤ FW_EEPROM_SIZE ∧
    (∃ fs', package_device (PackageFS.mk [1, 2, 3, 4] [0xAA, 0xBB] []) = Except.ok fs' ∧
      fs'.image.length = FW_FLASH_SIZE + FW_EEPROM_SIZE ∧
      fs'.image.take (PackageFS.mk [1, 2, 3, 4] [0xAA, 0xBB] []).bin.length =
        (PackageFS.mk [1, 2, 3, 4] [0xAA, 0xBB] []).bin ∧
      (fs'.image.drop (PackageFS.mk [1, 2, 3, 4] [0xAA, 0xBB] []).bin.length).take
          (FW_FLASH_SIZE - (PackageFS.mk [1, 2, 3, 4] [0xAA, 0xBB] []).bin.length) =
        List.replicate (FW_FLASH_SIZE - (PackageFS.mk [1, 2, 3, 4] [0xAA, 0xBB] []).bin.length) 0xff ∧
      (fs'.image.drop FW_FLASH_SIZE).take (PackageFS.mk [1, 2, 3, 4] [0xAA, 0xBB] []).eeprom.length =
        (PackageFS.mk [1, 2, 3, 4] [0xAA, 0xBB] []).eeprom ∧
      fs'.image.drop (FW_FLASH_SIZE + (PackageFS.mk [1, 2, 3, 4] [0xAA, 0xBB] []).eeprom.length) =
        List.replicate (FW_EEPROM_SIZE - (PackageFS.mk [1, 2, 3, 4] [0xAA, 0xBB] []).eeprom.length) 0xff) :=
  ⟨by decide, by decide, package_device_layout _ (by decide) (by decide)⟩

/-- C1 counterexample: on a binary one byte longer than `FW_FLASH_SIZE`,
`package_device` does not raise `ImageTooLargeError`: it returns
successfully (and therefore writes to `image_path`). -/
theorem package_device_no_size_check :
    FW_FLASH_SIZE <
      (PackageFS.mk (List.replicate (FW_FLASH_SIZE + 1) 0) [] []).bin.length ∧
    package_device (PackageFS.mk (List.replicate (FW_FLASH_SIZE + 1) 0) [] []) ≠
      Except.error PkgErr.imageTooLarge ∧
    (package_device (PackageFS.mk (List.replicate (FW_FLASH_SIZE + 1) 0) [] [])).isOk = true := by
  refine ⟨?_, fun h => Except.noConfusion h, rfl⟩
  have h : (PackageFS.mk (List.replicate (FW_FLASH_SIZE + 1) 0) [] []).bin.length
      = FW_FLASH_SIZE + 1 := List.length_replicate _ _
  omega

/-- C1 amended: `package_device` performs no size validation.  Whenever the
binary is longer than `FW_FLASH_SIZE` (and the eeprom is in bounds), the
call still succeeds and overwrites `image_path` with an image of length
`len(b) + FW_EEPROM_SIZE`, which exceeds `FW_FLASH_SIZE + FW_EEPROM_SIZE`;
no `ImageTooLargeError` is raised. -/
theorem package_device_oversized (fs : PackageFS)
    (hb : FW_FLASH_SIZE < fs.bin.length)
    (he : fs.eeprom.length ≤ FW_EEPROM_SIZE) :
    ∃ fs', package_device fs = Except.ok fs' ∧
      fs'.image.length = fs.bin.length + FW_EEPROM_SIZE ∧
      FW_FLASH_SIZE + FW_EEPROM_SIZE < fs'.image.length := by
  refine ⟨{ fs with
      image := ljust fs.bin FW_FLASH_SIZE 0xff ++ ljust fs.eeprom FW_EEPROM_SIZE 0xff },
    rfl, ?_, ?_⟩ <;>
    simp only [ljust, List.length_append, List.length_replicate] <;> omega

/-- Witness for the amended C1 statement, at a binary of
`FW_FLASH_SIZE + 1` zero bytes and an empty eeprom. -/
theorem package_device_oversized_witness :
    FW_FLASH_SIZE <
      (PackageFS.mk (List.replicate (FW_FLASH_SIZE + 1) 0) [] []).bin.length ∧
    (PackageFS.mk (List.replicate (FW_FLASH_SIZE + 1) 0) [] []).eeprom.length ≤ FW_EEPROM_SIZE ∧
    (∃ fs', package_device (PackageFS.mk (List.replicate (FW_FLASH_SIZE + 1) 0) [] []) =
        Except.ok fs' ∧
      fs'.image.length =
        (PackageFS.mk (List.replicate (FW_FLASH_SIZE + 1) 0) [] []).bin.length + FW_EEPROM_SIZE ∧
      FW_FLASH_SIZE + FW_EEPROM_SIZE < fs'.image.length) := by
  have h : (PackageFS.mk (List.replicate (FW_FLASH_SIZE + 1) 0) [] []).bin.length
      = FW_FLASH_SIZE + 1 := List.length_replicate _ _
  exact ⟨by omega, by decide, package_device_oversized _ (by omega) (by decide)⟩

/-- C8: `package_device` is pure in the contents of `bin_path` and
`eeprom_path` — two calls on filesystem states agreeing on those two files
write byte-identical contents to `image_path`, whatever else (for example
the previous image) differs — and idempotent: running it a second time on
the state left by the first run reproduces that state exactly. -/
theorem package_device_pure_idempotent (fs1 fs2 : PackageFS)
    (hb : fs1.bin = fs2.bin) (he : fs1.eeprom = fs2.eeprom) :
    (package_device fs1).map PackageFS.image =
      (package_device fs2).map PackageFS.image ∧
    (package_device fs1).bind package_device = package_device fs1 := by
  refine ⟨?_, rfl⟩
  simp only [package_device, Except.map, hb, he]

/-- C10: the only file `package_device` changes is the one at `image_path`:
the contents at `bin_path` and `eeprom_path` are left untouched, and the
bytes written to `image_path` do not depend on its previous contents (a
single full overwrite). -/
theorem package_device_frame (fs : PackageFS) :
    ∃ fs', package_device fs = Except.ok fs' ∧
      fs'.bin = fs.bin ∧ fs'.eeprom = fs.eeprom ∧
      ∀ img0, (package_device { fs with image := img0 }).map PackageFS.image =
        Except.ok fs'.image :=
  ⟨_, rfl, rfl, rfl, fun _ => rfl⟩

/-- Witness for C8 at two states sharing bin `[1]` and eeprom `[2]` but
holding different previous images. -/
theorem package_device_pure_idempotent_witness :
    (PackageFS.mk [1] [2] []).bin = (PackageFS.mk [1] [2] [3]).bin ∧
    (PackageFS.mk [1] [2] []).eeprom = (PackageFS.mk [1] [2] [3]).eeprom ∧
    ((package_device (PackageFS.mk [1] [2] [])).map PackageFS.image =
      (package_device (PackageFS.mk [1] [2] [3])).map PackageFS.image ∧
    (package_device (PackageFS.mk [1] [2] [])).bind package_device =
      package_device (PackageFS.mk [1] [2] [])) :=
  ⟨rfl, rfl, package_device_pure_idempotent _ _ rfl rfl⟩

/-- The name of the deployment-scoped secrets volume as composed in the
`docker run` command of `make_dev` (`build.py:130`):
`f"{image}.{name}.{deployment}.secrets.vol"`. -/
def secrets_volume_name (image name deployment : String) : String :=
  image ++ "." ++ name ++ "." ++ deployment ++ ".secrets.vol"

/-- The shell command string assembled by `make_dev` for its single
`run_shell` call (`build.py:126-142`); `dev_in` and `dev_out` are the
already-resolved host paths. -/
def mkCompileCmd (image name deployment dev_name dev_in dev_out defines make_target :
    String) : String :=
  ("docker run"
    ++ (" -v \"" ++ dev_in ++ "\":/dev_in:ro")
    ++ (" -v \"" ++ dev_out ++ "\":/dev_out"))
  ++ (" -v " ++ secrets_volume_name image name deployment ++ ":/secrets")
  ++ (" --workdir=/root"
    ++ (" " ++ (image ++ ":" ++ name) ++ " /bin/bash -c")
    ++ " \""
    ++ " cp -r /dev_in/. /root/ &&"
    ++ (" make " ++ make_target)
    ++ (" " ++ defines)
    ++ " SECRETS_DIR=/secrets"
    ++ (" BIN_PATH=" ++ ("/dev_out/" ++ dev_name ++ ".bin"))
    ++ (" ELF_PATH=" ++ ("/dev_out/" ++ dev_name ++ ".elf"))
    ++ (" EEPROM_PATH=" ++ ("/dev_out/" ++ dev_name ++ ".eeprom"))
    ++ "\"")

/-- Filesystem state visible to `make_dev`: whether `dev_out` already
exists, and the contents of `{dev_name}.bin`, `{dev_name}.eeprom` and
`{dev_name}.img` under `dev_out` once the compile step has run. -/
structure DevFS where
  devOutExists : Bool
  binFile : List Nat
  eepromFile : List Nat
  imageFile : List Nat
deriving Repr, DecidableEq

/-- Observable effects of a device build, in program order. -/
inductive DevEvent
  | mkdirOut (dir : String)
  | compile (cmd : String)
  | writeImage (path : String) (data : List Nat)
deriving Repr, DecidableEq

def DevEvent.isCompile : DevEvent → Bool
  | .compile _ => true
  | _ => false

def DevEvent.isWrite : DevEvent → Bool
  | .writeImage _ _ => true
  | _ => false

def DevEvent.isMkdir : DevEvent → Bool
  | .mkdirOut _ => true
  | _ => false

/-- Errors a device build can raise: the propagated `run_shell` failure of
the compile step (carrying its captured stdout/stderr), or an error from
packaging. -/
inductive DevErr
  | compileFailed (stdout stderr : String)
  | packageFailed (e : PkgErr)
deriving Repr, DecidableEq

/-- `make_dev` (`build.py:96-160`).  `run_shell` (`fpb_tools.utils`) is not
among the sources; per the spec's Command Runner contract it returns the
captured `(stdout, stderr)` or raises on non-zero exit, so the outcome of
the single `run_shell` call is the `shellResult` argument.  Path resolution
(`(design / dev_in).resolve()`) is modelled as path concatenation.  Steps in
program order: create `dev_out` if missing, run the compile command, then —
only if the compile returned — package `{dev_name}.bin` and
`{dev_name}.eeprom` into `{dev_name}.img` and return the compile output. -/
def make_dev (image name design deployment dev_name : String)
    (dev_in dev_out : String) (defines make_target : String)
    (fs : DevFS) (shellResult : Except (String × String) (String × String)) :
    List DevEvent × Except DevErr (String × String) :=
  let mkdirEvents := if fs.devOutExists then [] else [DevEvent.mkdirOut dev_out]
  let cmd := mkCompileCmd image name deployment dev_name (design ++ "/" ++ dev_in)
    dev_out defines make_target
  let events := mkdirEvents ++ [DevEvent.compile cmd]
  match shellResult with
  | Except.error e => (events, Except.error (DevErr.compileFailed e.1 e.2))
  | Except.ok output =>
    match package_device (PackageFS.mk fs.binFile fs.eepromFile fs.imageFile) with
    | Except.error e => (events, Except.error (DevErr.packageFailed e))
    | Except.ok fs' =>
      (events ++ [DevEvent.writeImage (dev_out ++ "/" ++ dev_name ++ ".img") fs'.image],
        Except.ok output)

/-- The compile events of a `make_dev` trace: always exactly the one
`run_shell` invocation, whatever the filesystem state and shell outcome. -/
theorem make_dev_filter_compile (image name design deployment dev_name : String)
    (dev_in dev_out : String) (defines make_target : String)
    (fs : DevFS) (shellResult : Except (String × String) (String × String)) :
    (make_dev image name design deployment dev_name dev_in dev_out defines make_target
        fs shellResult).1.filter DevEvent.isCompile =
      [DevEvent.compile (mkCompileCmd image name deployment dev_name
        (design ++ "/" ++ dev_in) dev_out defines make_target)] := by
  unfold make_dev
  cases shellResult <;> cases fs.devOutExists <;>
    simp [package_device, DevEvent.isCompile, List.filter_append]

/-- The mkdir events of a `make_dev` trace: one when `dev_out` was missing,
none when it already existed. -/
theorem make_dev_filter_mkdir (image name design deployment dev_name : String)
    (dev_in dev_out : String) (defines make_target : String)
    (fs : DevFS) (shellResult : Except (String × String) (String × String)) :
    (make_dev image name design deployment dev_name dev_in dev_out defines make_target
        fs shellResult).1.filter DevEvent.isMkdir =
      (if fs.devOutExists then [] else [DevEvent.mkdirOut dev_out]) := by
  unfold make_dev
  cases shellResult <;> cases fs.devOutExists <;>
    simp [package_device, DevEvent.isMkdir, List.filter_append]

/-- On a failed compile step, a `make_dev` trace has no write events and
the result is the propagated compile failure. -/
theorem make_dev_error_shape (image name design deployment dev_name : String)
    (dev_in dev_out : String) (defines make_target : String)
    (fs : DevFS) (e : String × String) :
    (make_dev image name design deployment dev_name dev_in dev_out defines make_target
        fs (Except.error e)).1.filter DevEvent.isWrite = [] ∧
    (make_dev image name design deployment dev_name dev_in dev_out defines make_target
        fs (Except.error e)).2 = Except.error (DevErr.compileFailed e.1 e.2) := by
  unfold make_dev
  cases fs.devOutExists <;>
    simp [DevEvent.isWrite, List.filter_append]

/-- C3: if the compile step's `run_shell` call raises, `make_dev` has
performed exactly one compile invocation, `package_device` is never reached
— no write to `{dev_name}.img` occurs — and the failure propagates. -/
theorem make_dev_compile_failure (image name design deployment dev_name : String)
    (dev_in dev_out : String) (defines make_target : String)
    (fs : DevFS) (shellResult : Except (String × String) (String × String))
    (e : String × String) (h : shellResult = Except.error e) :
    ((make_dev image name design deployment dev_name dev_in dev_out defines make_target
        fs shellResult).1.filter DevEvent.isCompile).length = 1 ∧
    (make_dev image name design deployment dev_name dev_in dev_out defines make_target
        fs shellResult).1.filter DevEvent.isWrite = [] ∧
    (make_dev image name design deployment dev_name dev_in dev_out defines make_target
        fs shellResult).2 = Except.error (DevErr.compileFailed e.1 e.2) := by
  subst h
  refine ⟨?_, (make_dev_error_shape _ _ _ _ _ _ _ _ _ _ _).1,
    (make_dev_error_shape _ _ _ _ _ _ _ _ _ _ _).2⟩
  rw [make_dev_filter_compile]
  rfl

/-- Witness for C3 at a concrete failing compile step. -/
theorem make_dev_compile_failure_witness :
    (Except.error ("so far", "boom") :
        Except (String × String) (String × String)) = Except.error ("so far", "boom") ∧
    (((make_dev "img" "env1" "dsn" "dep" "car1" "in" "out" " CAR_ID=7" "car"
        (DevFS.mk true [] [] []) (Except.error ("so far", "boom"))).1.filter
          DevEvent.isCompile).length = 1 ∧
      (make_dev "img" "env1" "dsn" "dep" "car1" "in" "out" " CAR_ID=7" "car"
        (DevFS.mk true [] [] []) (Except.error ("so far", "boom"))).1.filter
          DevEvent.isWrite = [] ∧
      (make_dev "img" "env1" "dsn" "dep" "car1" "in" "out" " CAR_ID=7" "car"
        (DevFS.mk true [] [] []) (Except.error ("so far", "boom"))).2 =
        Except.error (DevErr.compileFailed ("so far", "boom").1 ("so far", "boom").2)) :=
  ⟨rfl, make_dev_compile_failure "img" "env1" "dsn" "dep" "car1" "in" "out" " CAR_ID=7"
    "car" (DevFS.mk true [] [] []) _ ("so far", "boom") rfl⟩

/-- C9: the output directory is created exactly when it is missing — with
`dev_out` already present no mkdir event occurs, with it absent exactly one
does — and the build's result does not depend on which of the two held, so
an existing directory raises no error and is reused as-is. -/
theorem make_dev_output_dir (image name design deployment dev_name : String)
    (dev_in dev_out : String) (defines make_target : String)
    (fs : DevFS) (shellResult : Except (String × String) (String × String)) :
    (make_dev image name design deployment dev_name dev_in dev_out defines make_target
        { fs with devOutExists := true } shellResult).1.filter DevEvent.isMkdir = [] ∧
    (make_dev image name design deployment dev_name dev_in dev_out defines make_target
        { fs with devOutExists := false } shellResult).1.filter DevEvent.isMkdir =
      [DevEvent.mkdirOut dev_out] ∧
    (make_dev image name design deployment dev_name dev_in dev_out defines make_target
        { fs with devOutExists := true } shellResult).2 =
      (make_dev image name design deployment dev_name dev_in dev_out defines make_target
        { fs with devOutExists := false } shellResult).2 := by
  refine ⟨?_, ?_, ?_⟩
  · rw [make_dev_filter_mkdir]
    simp
  · rw [make_dev_filter_mkdir]
    simp
  · unfold make_dev
    cases shellResult <;> simp [package_device]

/-- C5 counterexample: at image repo `img`, environment name `env1` and
deployment `dep`, the secrets volume the code mounts is
`img.env1.dep.secrets.vol` — with a trailing `.vol` — and not the
composition `img.env1.dep.secrets` stated by the spec. -/
theorem secrets_volume_name_has_vol_suffix :
    secrets_volume_name "img" "env1" "dep" = "img.env1.dep.secrets.vol" ∧
    secrets_volume_name "img" "env1" "dep" ≠ "img.env1.dep.secrets" :=
  ⟨by decide, by decide⟩

/-- C5 amended: the deployment-scoped secrets volume mounted at `/secrets`
in the compile container is named by the deterministic composition
`image.name.deployment.secrets.vol` — the spec's composition of image repo,
environment name and deployment id followed by a fixed `.vol` suffix: the
single compile command of every `make_dev` trace mounts exactly that
volume. -/
theorem make_dev_secrets_mount (image name design deployment dev_name : String)
    (dev_in dev_out : String) (defines make_target : String)
    (fs : DevFS) (shellResult : Except (String × String) (String × String)) :
    ∃ pre post,
      (make_dev image name design deployment dev_name dev_in dev_out defines make_target
          fs shellResult).1.filter DevEvent.isCompile =
        [DevEvent.compile (pre ++
          (" -v " ++ (image ++ "." ++ name ++ "." ++ deployment ++ ".secrets.vol")
            ++ ":/secrets") ++ post)] := by
  refine ⟨"docker run" ++ (" -v \"" ++ (design ++ "/" ++ dev_in) ++ "\":/dev_in:ro")
      ++ (" -v \"" ++ dev_out ++ "\":/dev_out"),
    " --workdir=/root" ++ (" " ++ (image ++ ":" ++ name) ++ " /bin/bash -c") ++ " \""
      ++ " cp -r /dev_in/. /root/ &&" ++ (" make " ++ make_target) ++ (" " ++ defines)
      ++ " SECRETS_DIR=/secrets" ++ (" BIN_PATH=" ++ ("/dev_out/" ++ dev_name ++ ".bin"))
      ++ (" ELF_PATH=" ++ ("/dev_out/" ++ dev_name ++ ".elf"))
      ++ (" EEPROM_PATH=" ++ ("/dev_out/" ++ dev_name ++ ".eeprom")) ++ "\"", ?_⟩
  rw [make_dev_filter_compile]
  rfl

/-- Modelled from the spec: `zip_step_returns` of `fpb_tools.utils` is not
among the sources.  Spec 4.4 (Step-Result Aggregator): concatenate the
stdout streams and the stderr streams of the given step results in input
order; the empty sequence yields an empty result. -/
def zip_step_returns (results : List (String × String)) : String × String :=
  (String.join (results.map Prod.fst), String.join (results.map Prod.snd))

/-- `car_fob_pair` (`build.py:54-91`): one `make_dev` call for the car, with
defines `f" CAR_ID={car_id}"` and make target `"car"`, whose single result
is aggregated with `zip_step_returns`. -/
def car_fob_pair (design name deployment car_name : String) (car_out : String)
    (car_id : Nat) (car_in image : String) (fs : DevFS)
    (shellResult : Except (String × String) (String × String)) :
    List DevEvent × Except DevErr (String × String) :=
  let car_defines := " CAR_ID=" ++ toString car_id
  let car_output := make_dev image name design deployment car_name car_in car_out
    car_defines "car" fs shellResult
  match car_output.2 with
  | Except.error e => (car_output.1, Except.error e)
  | Except.ok out => (car_output.1, Except.ok (zip_step_returns [out]))

/-- C6: the paired build runs exactly one device build — the car, with make
target `"car"` and define ` CAR_ID={car_id}` — its trace is that single
`make_dev` trace (one compile invocation, no fob events), and its value is
the aggregation of that single step result. -/
theorem car_fob_pair_single_car_build (design name deployment car_name : String)
    (car_out : String) (car_id : Nat) (car_in image : String) (fs : DevFS)
    (shellResult : Except (String × String) (String × String)) :
    (car_fob_pair design name deployment car_name car_out car_id car_in image
        fs shellResult).1 =
      (make_dev image name design deployment car_name car_in car_out
        (" CAR_ID=" ++ toString car_id) "car" fs shellResult).1 ∧
    ((car_fob_pair design name deployment car_name car_out car_id car_in image
        fs shellResult).1.filter DevEvent.isCompile).length = 1 ∧
    (car_fob_pair design name deployment car_name car_out car_id car_in image
        fs shellResult).2 =
      (make_dev image name design deployment car_name car_in car_out
        (" CAR_ID=" ++ toString car_id) "car" fs shellResult).2.map
        (fun out => zip_step_returns [out]) := by
  refine ⟨?_, ?_, ?_⟩
  · unfold car_fob_pair
    cases h : (make_dev image name design deployment car_name car_in car_out
        (" CAR_ID=" ++ toString car_id) "car" fs shellResult).2 <;> simp [h]
  · have h1 : (car_fob_pair design name deployment car_name car_out car_id car_in image
        fs shellResult).1 =
      (make_dev image name design deployment car_name car_in car_out
        (" CAR_ID=" ++ toString car_id) "car" fs shellResult).1 := by
      unfold car_fob_pair
      cases h : (make_dev image name design deployment car_name car_in car_out
          (" CAR_ID=" ++ toString car_id) "car" fs shellResult).2 <;> simp [h]
    rw [h1, make_dev_filter_compile]
    rfl
  · unfold car_fob_pair
    cases h : (make_dev image name design deployment car_name car_in car_out
        (" CAR_ID=" ++ toString car_id) "car" fs shellResult).2 <;>
      simp [h, Except.map]

/-- Observable effects of an environment build. -/
inductive EnvEvent
  | dockerBuild (tag : String)
deriving Repr, DecidableEq

/-- Errors an environment build can raise: the failure to open a missing
`design/docker_dir/dockerfile` manifest, raised before the container
runtime is contacted (the class the spec's taxonomy names `ConfigError`),
or the runtime's build failure re-raised with its build log. -/
inductive EnvErr
  | configError
  | buildFailed (log : List (Option String))
deriving Repr, DecidableEq

/-- Filesystem state visible to `env`: whether the manifest
`design/docker_dir/dockerfile` exists and can be opened, and its content. -/
structure EnvFS where
  dockerfileExists : Bool
  dockerfileContent : String
deriving Repr, DecidableEq

/-- `env` (`build.py:16-51`).  The container runtime is external; the
outcome of `client.images.build` is the `buildResult` argument —
`Except.ok logs_raw` with the build-log entries (an entry's optional
`"stream"` field modelled as `Option String`), or `Except.error log` for a
raised `BuildError` carrying its log.  The code opens the manifest before
any docker call, so a missing manifest fails with an empty trace; on
success it returns the joined `stream` fields as stdout and `b""` as
stderr. -/
def env (design docker_dir dockerfile : String) (image name : String) (fs : EnvFS)
    (buildResult : Except (List (Option String)) (List (Option String))) :
    List EnvEvent × Except EnvErr (String × String) :=
  let tag := image ++ ":" ++ name
  if fs.dockerfileExists then
    match buildResult with
    | Except.error log =>
      ([EnvEvent.dockerBuild tag], Except.error (EnvErr.buildFailed log))
    | Except.ok logs_raw =>
      ([EnvEvent.dockerBuild tag],
        Except.ok (String.join (logs_raw.filterMap id), ""))
  else ([], Except.error EnvErr.configError)

/-- The concatenation, in order, of the `stream` entries of a build log,
written as the spec describes it (entries missing the field contribute
nothing). -/
def concatStreams : List (Option String) → String
  | [] => ""
  | Option.some s :: rest => s ++ concatStreams rest
  | Option.none :: rest => concatStreams rest

theorem foldl_append_eq (l : List String) (a : String) :
    l.foldl (· ++ ·) a = a ++ l.foldl (· ++ ·) "" := by
  induction l generalizing a with
  | nil => simp [List.foldl, String.append_empty]
  | cons s rest ih =>
    simp only [List.foldl]
    rw [ih (a ++ s), ih ("" ++ s), String.empty_append, String.append_assoc]

theorem join_filterMap_eq_concatStreams (l : List (Option String)) :
    String.join (l.filterMap id) = concatStreams l := by
  induction l with
  | nil => rfl
  | cons entry rest ih =>
    cases entry with
    | none => simpa [List.filterMap, concatStreams] using ih
    | some s =>
      simp only [List.filterMap, concatStreams, String.join, List.foldl]
      rw [foldl_append_eq, String.empty_append, ← ih]
      rfl

/-- C4: when the design path or the manifest `docker_dir/dockerfile` under
it is missing, the environment build fails — with the failure class the
spec's taxonomy names `ConfigError` — and its event trace is empty: no
container-runtime call was made. -/
theorem env_missing_manifest (design docker_dir dockerfile image name : String)
    (fs : EnvFS)
    (buildResult : Except (List (Option String)) (List (Option String)))
    (h : fs.dockerfileExists = false) :
    env design docker_dir dockerfile image name fs buildResult =
      ([], Except.error EnvErr.configError) := by
  unfold env
  rw [h]
  simp

/-- Witness for C4 at a concrete missing manifest. -/
theorem env_missing_manifest_witness :
    (EnvFS.mk false "").dockerfileExists = false ∧
    env "dsn" "docker" "Dockerfile" "img" "env1" (EnvFS.mk false "")
        (Except.ok []) = ([], Except.error EnvErr.configError) :=
  ⟨rfl, env_missing_manifest "dsn" "docker" "Dockerfile" "img" "env1" _ _ rfl⟩

/-- C7: on a successful environment build, the result's stdout is the
concatenation, in order, of the `stream` entries of the runtime's build
log, and its stderr is the empty byte string. -/
theorem env_success_logs (design docker_dir dockerfile image name : String)
    (fs : EnvFS) (logs_raw : List (Option String))
    (h : fs.dockerfileExists = true) :
    (env design docker_dir dockerfile image name fs (Except.ok logs_raw)).2 =
      Except.ok (concatStreams logs_raw, "") := by
  unfold env
  rw [h]
  simp [join_filterMap_eq_concatStreams]

/-- Witness for C7 at a three-entry build log whose middle entry has no
`stream` field. -/
theorem env_success_logs_witness :
    (EnvFS.mk true "FROM x").dockerfileExists = true ∧
    (env "dsn" "docker" "Dockerfile" "img" "env1" (EnvFS.mk true "FROM x")
        (Except.ok [Option.some "step 1\n", Option.none, Option.some "step 2\n"])).2 =
      Except.ok (concatStreams
        [Option.some "step 1\n", Option.none, Option.some "step 2\n"], "") :=
  ⟨rfl, env_success_logs "dsn" "docker" "Dockerfile" "img" "env1" _ _ rfl⟩

end FPB
